import Mathlib

/-!
Shallow embedding of the EasyRPG Player virtual-filesystem / stream-I/O core:
`Filesystem_Stream::InputStream` typed reads (filesystem_stream.h),
the SAF (Android content-provider) backend's `FdStreamBufIn` / `FdStreamBufOut`
buffered descriptor streams (filesystem_saf.cpp), the native backend
(filesystem_native.cpp) and the configuration parameter base class
(config_param.h).  Byte values are modelled as `Nat`, machine offsets as `Int`,
fallible operations return `Option` or a sentinel `Int` exactly where the C++
does.
-/

/-! ## InputStream typed reads (filesystem_stream.h)

An `std::istream` over an arbitrary streambuf is modelled as a byte list plus
a read position; `istream::read(dst, n)` transfers `min n remaining` bytes and
`gcount()` reports how many.  A destination object of `sizeof == w` is its `w`
host-memory bytes, a `List Nat` of length `w`. -/

structure IStream where
  data : List Nat
  pos : Nat
deriving Repr, DecidableEq

/-- Model of `std::istream::read(dst, n)`: returns the bytes transferred
(`gcount()` is their length) and the advanced stream. -/
def istreamRead (s : IStream) (n : Nat) : List Nat × IStream :=
  let bs := (s.data.drop s.pos).take n
  (bs, { s with pos := s.pos + bs.length })

/-- Model of `Filesystem_Stream::InputStream::Read0<T>` for `sizeof(T) = w`:
`read(reinterpret_cast<char*>(&obj), sizeof(obj))` overwrites the first
`gcount()` bytes of the destination, and the call succeeds iff
`gcount() == sizeof(obj)`.  Returns (success, new destination bytes, stream). -/
def Read0 (w : Nat) (s : IStream) (obj : List Nat) : Bool × List Nat × IStream :=
  let (bs, s') := istreamRead s w
  (bs.length = w, bs ++ obj.drop bs.length, s')

/-- Modelled from the spec: `Utils::SwapByteOrder` (utils.h, not in src/) —
"performs an endianness swap from the persisted on-disk byte order to host
order" on a fixed-width integer object; an endianness swap of a `w`-byte
object reverses its bytes. -/
def SwapByteOrder (obj : List Nat) : List Nat := obj.reverse

/-- Model of the primary template `InputStream::ReadIntoObj<T>` (every type
without an explicit specialization): a raw, unswapped `Read0`. -/
def ReadIntoObjGeneric (w : Nat) (s : IStream) (obj : List Nat) :
    Bool × List Nat × IStream :=
  Read0 w s obj

/-- Model of the `ReadIntoObj<uint16_t>` specialization: `Read0` then
`Utils::SwapByteOrder` on the destination, success unchanged. -/
def ReadIntoObjUInt16 (s : IStream) (obj : List Nat) : Bool × List Nat × IStream :=
  let (ok, o, s') := Read0 2 s obj
  (ok, SwapByteOrder o, s')

/-- Model of the `ReadIntoObj<int16_t>` specialization: the value is copied
through a `uint16_t`, byte-swapped and copied back — byte-wise identical to
the unsigned case. -/
def ReadIntoObjInt16 (s : IStream) (obj : List Nat) : Bool × List Nat × IStream :=
  let (ok, o, s') := Read0 2 s obj
  (ok, SwapByteOrder o, s')

/-- Model of the `ReadIntoObj<uint32_t>` specialization. -/
def ReadIntoObjUInt32 (s : IStream) (obj : List Nat) : Bool × List Nat × IStream :=
  let (ok, o, s') := Read0 4 s obj
  (ok, SwapByteOrder o, s')

/-- Model of the `ReadIntoObj<int32_t>` specialization. -/
def ReadIntoObjInt32 (s : IStream) (obj : List Nat) : Bool × List Nat × IStream :=
  let (ok, o, s') := Read0 4 s obj
  (ok, SwapByteOrder o, s')

/-! ## ConfigParamBase (config_param.h)

The template `ConfigParamBase<T>` with its virtual validity predicate is
modelled as a structure carrying the current value, the `_visible` and
`_locked` flags and the subclass's `vIsValid` as a function field. -/

structure ConfigParamBase (α : Type) where
  value : α
  visible : Bool
  locked : Bool
  vIsValid : α → Bool

/-- Model of `ConfigParamBase::Get`. -/
def ConfigParamBase.Get {α} (p : ConfigParamBase α) : α := p.value

/-- Model of `ConfigParamBase::IsOptionVisible`. -/
def ConfigParamBase.IsOptionVisible {α} (p : ConfigParamBase α) : Bool := p.visible

/-- Model of `ConfigParamBase::IsLocked`. -/
def ConfigParamBase.IsLocked {α} (p : ConfigParamBase α) : Bool := p.locked

/-- Model of `ConfigParamBase::IsValid`: invisible options accept nothing,
a locked option accepts only its current value, otherwise the subclass
predicate decides. -/
def ConfigParamBase.IsValid {α} [DecidableEq α] (p : ConfigParamBase α)
    (v : α) : Bool :=
  if ¬ p.IsOptionVisible then false
  else if p.IsLocked then decide (v = p.value)
  else p.vIsValid v

/-- Model of `ConfigParamBase::Set`: fails when locked, otherwise stores the
value iff `IsValid` accepts it.  Returns (success, new parameter state). -/
def ConfigParamBase.Set {α} [DecidableEq α] (p : ConfigParamBase α)
    (v : α) : Bool × ConfigParamBase α :=
  if p.IsLocked then (false, p)
  else if p.IsValid v then (true, { p with value := v })
  else (false, p)

/-! ## FdStreamBufIn (filesystem_saf.cpp)

The buffered descriptor input stream holds a 4096-byte lookahead buffer over
a POSIX file descriptor.  The descriptor is modelled by the full byte content
it can deliver plus its current offset; `failRead` marks the directory-like
descriptors SAF hands out for inexistent targets, whose reads fail.  The get
area `eback..egptr` is `gdata` with read pointer `gpos`; `readCalls`,
`seekCalls` and `logs` count low-level reads, backend seeks and debug-log
lines for the observable-behaviour claims. -/

structure InBuf where
  fdpos : Int
  fileData : List Nat
  failRead : Bool
  gdata : List Nat
  gpos : Nat
  readCalls : Nat
  seekCalls : Nat
  logs : Nat
deriving Repr, DecidableEq

/-- Size of the lookahead buffer: `std::array<char, 4096>`. -/
def FdBufferSize : Nat := 4096

/-- Model of POSIX `read(fd, buf, n)` on the SAF descriptor: a directory-like
descriptor fails with a negative result, otherwise up to `n` bytes are
delivered from the descriptor offset.  Returns (result, bytes, state). -/
def rawRead (s : InBuf) (n : Nat) : Int × List Nat × InBuf :=
  if s.failRead then
    (-1, [], { s with readCalls := s.readCalls + 1 })
  else
    let bs := (s.fileData.drop s.fdpos.toNat).take n
    ((bs.length : Int), bs,
      { s with fdpos := s.fdpos + bs.length, readCalls := s.readCalls + 1 })

/-- Model of `FdStreamBufIn::underflow`: one `read` of `buffer.size()` bytes;
a zero result is EOF, a negative result is logged and is EOF as well,
otherwise `setg(buffer_start, buffer_start, buffer_start + res)` installs
the bytes read and `*gptr()` is returned.  `none` stands for EOF. -/
def FdStreamBufIn.underflow (s : InBuf) : Option Nat × InBuf :=
  let (res, bs, s') := rawRead s FdBufferSize
  if res = 0 then (none, s')
  else if res < 0 then (none, { s' with logs := s'.logs + 1 })
  else (bs.head?, { s' with gdata := bs, gpos := 0 })

/-- Model of `std::streambuf::sbumpc` over `FdStreamBufIn`: consume the next
buffered byte, refilling through `underflow` when the get area is
exhausted. -/
def FdStreamBufIn.sbumpc (s : InBuf) : Option Nat × InBuf :=
  if h : s.gpos < s.gdata.length then
    (some (s.gdata.get ⟨s.gpos, h⟩), { s with gpos := s.gpos + 1 })
  else
    match FdStreamBufIn.underflow s with
    | (none, s') => (none, s')
    | (some b, s') => (some b, { s' with gpos := s'.gpos + 1 })

/-- Reading `n` bytes through the buffered interface: `n` successive
`sbumpc`, stopping at EOF. -/
def FdStreamBufIn.readN : InBuf → Nat → List Nat × InBuf
  | s, 0 => ([], s)
  | s, n + 1 =>
    match FdStreamBufIn.sbumpc s with
    | (none, s') => ([], s')
    | (some b, s') =>
      let (bs, s'') := FdStreamBufIn.readN s' n
      (b :: bs, s'')

/-- Logical position of the buffered stream: the backend descriptor offset
minus the unread bytes still sitting in the get area. -/
def FdStreamBufIn.logicalPos (s : InBuf) : Int :=
  s.fdpos - ((s.gdata.length : Int) - (s.gpos : Int))

/-- Model of `FdStreamBufIn::seekoff` with `std::ios_base::cur`: the offset
is corrected by `gptr() - egptr()` (the negated count of unread buffered
bytes), one `lseek(fd, offset, SEEK_CUR)` is issued (failing with -1 on a
negative target, leaving the descriptor in place), and the get area is
invalidated by `setg(buffer_start, buffer_end, buffer_end)` — modelled as an
empty window. -/
def FdStreamBufIn.seekoffCur (s : InBuf) (delta : Int) : Int × InBuf :=
  let off := delta + ((s.gpos : Int) - (s.gdata.length : Int))
  let target := s.fdpos + off
  if target < 0 then
    (-1, { s with gdata := [], gpos := 0, seekCalls := s.seekCalls + 1 })
  else
    (target,
      { s with fdpos := target, gdata := [], gpos := 0,
               seekCalls := s.seekCalls + 1 })

/-! ## SafFilesystem (filesystem_saf.cpp)

`get_jni_handle` resolves a path through one bridge round trip to an opaque
handle — `none` when resolution yields a null handle.  A resolved handle
carries the results its bridged query methods would report and the behaviour
of the descriptor `createInputFileDescriptor` would return. -/

structure SafHandle where
  hIsFile : Bool
  hIsDirectory : Bool
  hExists : Bool
  hFilesize : Int
  fdResult : Int
  failRead : Bool
  fileData : List Nat
deriving Repr, DecidableEq

/-- Model of `SafFilesystem::IsFile`: false on a null handle, else the
bridged `isFile()`. -/
def SafFilesystem.IsFile : Option SafHandle → Bool
  | none => false
  | some h => h.hIsFile

/-- Model of `SafFilesystem::IsDirectory`. -/
def SafFilesystem.IsDirectory : Option SafHandle → Bool
  | none => false
  | some h => h.hIsDirectory

/-- Model of `SafFilesystem::Exists`. -/
def SafFilesystem.Exists : Option SafHandle → Bool
  | none => false
  | some h => h.hExists

/-- Model of `SafFilesystem::GetFilesize`: -1 on a null handle, else the
bridged `getFilesize()`. -/
def SafFilesystem.GetFilesize : Option SafHandle → Int
  | none => -1
  | some h => h.hFilesize

/-- Model of `SafFilesystem::CreateInputStreambuffer`, instrumented with the
bridge calls made after handle resolution (`createInputFileDescriptor`) and
the probe read attempts: (stream, bridge calls, read attempts).  A null
handle or negative descriptor yields no stream; otherwise one probe read
into the 4096-byte buffer is issued, a negative result logs, closes the
descriptor and yields no stream, and a successful one is forwarded as the
initial get area of the `FdStreamBufIn` (its constructor runs
`setg(buffer_start, buffer_start, buffer_start + bytes_read)`). -/
def SafFilesystem.CreateInputTrace (h : Option SafHandle) :
    Option InBuf × Nat × Nat :=
  match h with
  | none => (none, 0, 0)
  | some h =>
    if h.fdResult < 0 then (none, 1, 0)
    else
      let s0 : InBuf :=
        { fdpos := 0, fileData := h.fileData, failRead := h.failRead,
          gdata := [], gpos := 0, readCalls := 0, seekCalls := 0, logs := 0 }
      let (res, bs, s1) := rawRead s0 FdBufferSize
      if res < 0 then (none, 1, 1)
      else (some { s1 with gdata := bs, gpos := 0 }, 1, 1)

/-- The stream component of `SafFilesystem::CreateInputStreambuffer`
(`nullptr` is `none`). -/
def SafFilesystem.CreateInputStreambuffer (h : Option SafHandle) :
    Option InBuf :=
  (SafFilesystem.CreateInputTrace h).1

/-- The directory-like handle SAF resolves an inexistent target to, as
documented at the probe read in `CreateInputStreambuffer`: it exists-checks
false, its descriptor opens but every read on it fails. -/
def safMissingDirHandle : SafHandle :=
  { hIsFile := false, hIsDirectory := true, hExists := false, hFilesize := -1,
    fdResult := 3, failRead := true, fileData := [] }

/-! ## NativeFilesystem (filesystem_native.cpp)

The local filesystem is a partial map from paths to nodes. -/

inductive NodeKind
  | file
  | directory
deriving Repr, DecidableEq

structure NativeNode where
  kind : NodeKind
  size : Int
deriving Repr, DecidableEq

/-- Modelled from the spec: `Platform::File::IsFile` (platform.h, not in
src/) — a path that resolves to nothing reports `false`, a resolvable one
reports whether its node is a regular file. -/
def Platform.fileIsFile : Option NativeNode → Bool
  | none => false
  | some n => n.kind = NodeKind.file

/-- Modelled from the spec: `Platform::File::IsDirectory` (platform.h, not
in src/) — `false` sentinel on a missing path. -/
def Platform.fileIsDirectory : Option NativeNode → Bool
  | none => false
  | some n => n.kind = NodeKind.directory

/-- Modelled from the spec: `Platform::File::Exists` (platform.h, not in
src/) — `false` sentinel on a missing path. -/
def Platform.fileExists : Option NativeNode → Bool
  | none => false
  | some _ => true

/-- Modelled from the spec: `Platform::File::GetSize` (platform.h, not in
src/) — `-1` sentinel on a missing path, the node size otherwise. -/
def Platform.fileGetSize : Option NativeNode → Int
  | none => -1
  | some n => n.size

/-- Model of `NativeFilesystem::IsFile`: delegate to the platform query on
the resolved path. -/
def NativeFilesystem.IsFile (fs : String → Option NativeNode) (p : String) :
    Bool :=
  Platform.fileIsFile (fs p)

/-- Model of `NativeFilesystem::IsDirectory`. -/
def NativeFilesystem.IsDirectory (fs : String → Option NativeNode)
    (p : String) : Bool :=
  Platform.fileIsDirectory (fs p)

/-- Model of `NativeFilesystem::Exists`. -/
def NativeFilesystem.Exists (fs : String → Option NativeNode) (p : String) :
    Bool :=
  Platform.fileExists (fs p)

/-- Model of `NativeFilesystem::GetFilesize`. -/
def NativeFilesystem.GetFilesize (fs : String → Option NativeNode)
    (p : String) : Int :=
  Platform.fileGetSize (fs p)

/-- Model of `NativeFilesystem::CreateInputStreambuffer`: the read-open of
the path (`open(fd, O_RDONLY)` or `std::filebuf::open`, outside src/,
modelled from the spec as failing on a path that resolves to nothing)
returns the opened node or `none` for the `nullptr` stream buffer. -/
def NativeFilesystem.CreateInputStreambuffer (fs : String → Option NativeNode)
    (p : String) : Option NativeNode :=
  match fs p with
  | none => none
  | some n => if n.kind = NodeKind.file then some n else none

/-- Model of `Platform::FileType` as reported by directory-entry metadata. -/
inductive PlatformFileType
  | File
  | Directory
  | Other
  | Unknown
deriving Repr, DecidableEq

/-- Model of `DirectoryTree::FileType` of a produced entry. -/
inductive TreeFileType
  | Regular
  | Directory
deriving Repr, DecidableEq

/-- One platform directory entry: its name and the metadata-reported type. -/
structure PlatformDirEntry where
  name : String
  etype : PlatformFileType
deriving Repr, DecidableEq

/-- Model of the enumeration loop of
`NativeFilesystem::GetDirectoryContent`: skip `.` and `..`, classify as a
directory when the entry metadata says `Directory`, fall back to the
explicit symlink-following probe `IsDirectory(name, true)` (abstracted as
`probe`) only when the metadata says `Unknown`, and report everything else
as `Regular`. -/
def NativeFilesystem.GetDirectoryContent (probe : String → Bool) :
    List PlatformDirEntry → List (String × TreeFileType)
  | [] => []
  | e :: rest =>
    if e.name = "." ∨ e.name = ".." then
      NativeFilesystem.GetDirectoryContent probe rest
    else
      let is_directory :=
        if e.etype = PlatformFileType.Directory then true
        else if e.etype = PlatformFileType.Unknown then probe e.name
        else false
      (e.name,
        if is_directory then TreeFileType.Directory else TreeFileType.Regular)
        :: NativeFilesystem.GetDirectoryContent probe rest

/-! ## FdStreamBufOut (filesystem_saf.cpp)

The put area `setp(buffer_start, buffer_end)` spans `&buffer.front()` to
`&buffer.back()`, a capacity of 4095 bytes.  Low-level `write(fd, p, n)`
results are driven by an oracle list of `Int` results; an exhausted oracle
accepts everything. -/

/-- Capacity of the put area: `&buffer.back() - &buffer.front()` over
`std::array<char, 4096>`. -/
def FdOutCapacity : Nat := 4095

structure OutBuf where
  buf : List Nat
  accepted : List Nat
  oracle : List Int
  writeCalls : Nat
  closed : Bool
deriving Repr, DecidableEq

/-- Model of POSIX `write(fd, src, n)`: the oracle's next result is the
return value (negative for an error, otherwise capped at the requested
length); the accepted prefix reaches the backend. -/
def rawWrite (s : OutBuf) (bs : List Nat) : Int × OutBuf :=
  match s.oracle with
  | [] =>
    ((bs.length : Int),
      { s with accepted := s.accepted ++ bs, writeCalls := s.writeCalls + 1 })
  | r :: rest =>
    if r < 0 then
      (r, { s with oracle := rest, writeCalls := s.writeCalls + 1 })
    else
      ((min r.toNat bs.length : Nat),
        { s with oracle := rest,
                 accepted := s.accepted ++ bs.take (min r.toNat bs.length),
                 writeCalls := s.writeCalls + 1 })

/-- Model of `FdStreamBufOut::sync`: an empty put area succeeds immediately;
otherwise one low-level `write` of the buffered span, the put area reset
unconditionally (`setp(buffer_start, buffer_end)`), and the `-1` failure
sentinel when fewer bytes than requested were accepted. -/
def FdStreamBufOut.sync (s : OutBuf) : Int × OutBuf :=
  let len := s.buf.length
  if len = 0 then (0, s)
  else
    let (res, s1) := rawWrite s s.buf
    let s2 := { s1 with buf := [] }
    if res < (len : Int) then (-1, s2) else (0, s2)

/-- Model of `FdStreamBufOut::overflow(c)`: flush first; a failed flush is
EOF with no further low-level write in the call; then a non-EOF `c` is
written individually, EOF when fewer than 1 byte was accepted.  `none`
stands for EOF. -/
def FdStreamBufOut.overflow (s : OutBuf) (c : Option Nat) :
    Option Nat × OutBuf :=
  let (r, s1) := FdStreamBufOut.sync s
  if r < 0 then (none, s1)
  else
    match c with
    | none => (none, s1)
    | some b =>
      let (res, s2) := rawWrite s1 [b]
      if res < 1 then (none, s2) else (some b, s2)

/-- Model of `~FdStreamBufOut`: `sync()` with its result discarded, then
`close(fd)`; a total function, never raises. -/
def FdStreamBufOut.destroy (s : OutBuf) : OutBuf :=
  { (FdStreamBufOut.sync s).2 with closed := true }

/-- Modelled from the spec: the `std::ostream` layer above the streambuf
(`Filesystem_Stream::OutputStream` is an `std::ostream`, outside src/) — a
character write stores into the put area while space remains, calls
`overflow` at capacity, and sets the sticky failure state (badbit) when
`overflow` reports EOF; once set, every subsequent write fails without
touching buffer or backend. -/
structure OutStream where
  sb : OutBuf
  bad : Bool
deriving Repr, DecidableEq

/-- Character write through the `std::ostream` layer: (success, state). -/
def OutStream.put (s : OutStream) (b : Nat) : Bool × OutStream :=
  if s.bad then (false, s)
  else if s.sb.buf.length < FdOutCapacity then
    (true, { s with sb := { s.sb with buf := s.sb.buf ++ [b] } })
  else
    match FdStreamBufOut.overflow s.sb (some b) with
    | (none, sb') => (false, { sb := sb', bad := true })
    | (some _, sb') => (true, { sb := sb', bad := false })

/-! ## Claims -/

/-- C1. `ReadIntoObj<T>` reads `sizeof(T)` bytes and succeeds iff all of them
were read; the primary template is a raw unswapped copy of the bytes read
(a short read leaving the tail of the destination untouched); exactly the
four fixed-width specializations (`int16_t`, `uint16_t`, `int32_t`,
`uint32_t`) additionally apply the on-disk-to-host byte-order swap to the
destination. -/
theorem readIntoObj_spec (s : IStream) (obj2 obj4 : List Nat) (w : Nat)
    (objw : List Nat) (hw : objw.length = w) (h2 : obj2.length = 2)
    (h4 : obj4.length = 4) :
    ((ReadIntoObjGeneric w s objw).1 = true ↔ w ≤ s.data.length - s.pos) ∧
    (ReadIntoObjGeneric w s objw).2.1 =
      ((s.data.drop s.pos).take w) ++
        objw.drop ((s.data.drop s.pos).take w).length ∧
    (ReadIntoObjUInt16 s obj2).2.1 = SwapByteOrder (Read0 2 s obj2).2.1 ∧
    (ReadIntoObjInt16 s obj2).2.1 = SwapByteOrder (Read0 2 s obj2).2.1 ∧
    (ReadIntoObjUInt32 s obj4).2.1 = SwapByteOrder (Read0 4 s obj4).2.1 ∧
    (ReadIntoObjInt32 s obj4).2.1 = SwapByteOrder (Read0 4 s obj4).2.1 ∧
    ((ReadIntoObjUInt16 s obj2).1 = true ↔ 2 ≤ s.data.length - s.pos) ∧
    ((ReadIntoObjInt16 s obj2).1 = true ↔ 2 ≤ s.data.length - s.pos) ∧
    ((ReadIntoObjUInt32 s obj4).1 = true ↔ 4 ≤ s.data.length - s.pos) ∧
    ((ReadIntoObjInt32 s obj4).1 = true ↔ 4 ≤ s.data.length - s.pos) := by
  subst hw
  refine ⟨?_, rfl, rfl, rfl, rfl, rfl, ?_, ?_, ?_, ?_⟩ <;>
    simp [ReadIntoObjGeneric, ReadIntoObjUInt16, ReadIntoObjInt16,
      ReadIntoObjUInt32, ReadIntoObjInt32, Read0, istreamRead,
      List.length_take, List.length_drop]

/-- Witness for C1 at a concrete stream: 5 bytes available, a destination of
matching width, and the 16-bit swapped read succeeding. -/
theorem readIntoObj_spec_witness :
    ([(7 : Nat), 7, 7].length = 3) ∧ ([(9 : Nat), 9].length = 2) ∧
    ([(9 : Nat), 9, 9, 9].length = 4) ∧
    ((ReadIntoObjUInt16 ⟨[1, 2, 3, 4, 5], 0⟩ [9, 9]).1 = true ↔
      2 ≤ ([(1 : Nat), 2, 3, 4, 5] : List Nat).length - 0) :=
  ⟨by decide, by decide, by decide,
    (readIntoObj_spec ⟨[1, 2, 3, 4, 5], 0⟩ [9, 9] [9, 9, 9, 9] 3 [7, 7, 7]
      (by decide) (by decide) (by decide)).2.2.2.2.2.2.1⟩

/-- C10. `ConfigParamBase::Set v` succeeds with `Get` afterwards equal to `v`
exactly when the parameter is unlocked, visible, and `v` passes the subclass
validity predicate; in every other case it returns `false` and the old value
(indeed the whole parameter state) is unchanged. -/
theorem configParamBase_set_spec {α} [DecidableEq α] (p : ConfigParamBase α)
    (v : α) :
    (((p.Set v).1 = true ∧ (p.Set v).2.Get = v) ↔
      (p.locked = false ∧ p.visible = true ∧ p.vIsValid v = true)) ∧
    (¬ (p.locked = false ∧ p.visible = true ∧ p.vIsValid v = true) →
      (p.Set v).1 = false ∧ (p.Set v).2 = p) := by
  constructor
  · constructor
    · intro h
      by_cases hl : p.locked <;>
        by_cases hv : p.visible <;>
          by_cases hval : p.vIsValid v <;>
            simp_all [ConfigParamBase.Set, ConfigParamBase.IsValid,
              ConfigParamBase.IsLocked, ConfigParamBase.IsOptionVisible,
              ConfigParamBase.Get]
    · rintro ⟨hl, hv, hval⟩
      simp [ConfigParamBase.Set, ConfigParamBase.IsValid,
        ConfigParamBase.IsLocked, ConfigParamBase.IsOptionVisible,
        ConfigParamBase.Get, hl, hv, hval]
  · intro h
    by_cases hl : p.locked <;>
      by_cases hv : p.visible <;>
        by_cases hval : p.vIsValid v <;>
          simp_all [ConfigParamBase.Set, ConfigParamBase.IsValid,
            ConfigParamBase.IsLocked, ConfigParamBase.IsOptionVisible,
            ConfigParamBase.Get]

/-- Witness for C10 on a concrete `Nat` parameter: an unlocked visible
parameter accepting even values takes 4, and a locked one refuses it
unchanged. -/
theorem configParamBase_set_spec_witness :
    ((((ConfigParamBase.mk 0 true false (fun n => n % 2 == 0)).Set 4).1 = true ∧
        ((ConfigParamBase.mk 0 true false (fun n => n % 2 == 0)).Set 4).2.Get = 4) ↔
      ((ConfigParamBase.mk 0 true false (fun n : Nat => n % 2 == 0)).locked = false ∧
        (ConfigParamBase.mk 0 true false (fun n : Nat => n % 2 == 0)).visible = true ∧
        (ConfigParamBase.mk 0 true false (fun n : Nat => n % 2 == 0)).vIsValid 4 = true)) ∧
    (¬ ((ConfigParamBase.mk 0 true false (fun n : Nat => n % 2 == 0)).locked = false ∧
        (ConfigParamBase.mk 0 true false (fun n : Nat => n % 2 == 0)).visible = true ∧
        (ConfigParamBase.mk 0 true false (fun n : Nat => n % 2 == 0)).vIsValid 4 = true) →
      ((ConfigParamBase.mk 0 true false (fun n : Nat => n % 2 == 0)).Set 4).1 = false ∧
        ((ConfigParamBase.mk 0 true false (fun n : Nat => n % 2 == 0)).Set 4).2 =
          ConfigParamBase.mk 0 true false (fun n => n % 2 == 0)) :=
  configParamBase_set_spec (ConfigParamBase.mk 0 true false (fun n => n % 2 == 0)) 4

/-- C2. Seeking with `Current` origin on a buffered descriptor input stream
whose lookahead window may be partially consumed corrects the requested
delta by the unread buffered bytes: one backend seek is issued, it lands on
(and returns) the logical position before the seek plus the delta, and the
logical position afterwards equals that value — not the raw descriptor
offset. -/
theorem fdStreamBufIn_seekoffCur_logical (s : InBuf) (delta : Int)
    (hg : s.gpos ≤ s.gdata.length)
    (ht : 0 ≤ FdStreamBufIn.logicalPos s + delta) :
    (FdStreamBufIn.seekoffCur s delta).1 = FdStreamBufIn.logicalPos s + delta ∧
    FdStreamBufIn.logicalPos (FdStreamBufIn.seekoffCur s delta).2 =
      FdStreamBufIn.logicalPos s + delta ∧
    (FdStreamBufIn.seekoffCur s delta).2.seekCalls = s.seekCalls + 1 := by
  have htarget :
      s.fdpos + (delta + ((s.gpos : Int) - (s.gdata.length : Int))) =
        FdStreamBufIn.logicalPos s + delta := by
    simp [FdStreamBufIn.logicalPos]; ring
  have hnn : ¬ (s.fdpos + (delta + ((s.gpos : Int) - (s.gdata.length : Int))) < 0) := by
    omega
  refine ⟨?_, ?_, ?_⟩ <;>
    simp [FdStreamBufIn.seekoffCur, FdStreamBufIn.logicalPos, hnn] <;>
    omega

/-- Witness for C2: a stream at descriptor offset 10 with a 6-byte window of
which 2 bytes were consumed (logical position 6); a seek of +3 from current
lands on logical offset 9. -/
theorem fdStreamBufIn_seekoffCur_logical_witness :
    ((⟨10, [], false, [0, 1, 2, 3, 4, 5], 2, 1, 0, 0⟩ : InBuf).gpos ≤
      (⟨10, [], false, [0, 1, 2, 3, 4, 5], 2, 1, 0, 0⟩ : InBuf).gdata.length) ∧
    (0 ≤ FdStreamBufIn.logicalPos ⟨10, [], false, [0, 1, 2, 3, 4, 5], 2, 1, 0, 0⟩ + 3) ∧
    ((FdStreamBufIn.seekoffCur ⟨10, [], false, [0, 1, 2, 3, 4, 5], 2, 1, 0, 0⟩ 3).1 =
        FdStreamBufIn.logicalPos ⟨10, [], false, [0, 1, 2, 3, 4, 5], 2, 1, 0, 0⟩ + 3 ∧
      FdStreamBufIn.logicalPos
          (FdStreamBufIn.seekoffCur ⟨10, [], false, [0, 1, 2, 3, 4, 5], 2, 1, 0, 0⟩ 3).2 =
        FdStreamBufIn.logicalPos ⟨10, [], false, [0, 1, 2, 3, 4, 5], 2, 1, 0, 0⟩ + 3 ∧
      (FdStreamBufIn.seekoffCur ⟨10, [], false, [0, 1, 2, 3, 4, 5], 2, 1, 0, 0⟩ 3).2.seekCalls =
        (⟨10, [], false, [0, 1, 2, 3, 4, 5], 2, 1, 0, 0⟩ : InBuf).seekCalls + 1) :=
  ⟨by decide, by decide,
    fdStreamBufIn_seekoffCur_logical ⟨10, [], false, [0, 1, 2, 3, 4, 5], 2, 1, 0, 0⟩ 3
      (by decide) (by decide)⟩

/-- C8. When the read pointer has exhausted the buffered region, `sbumpc`
refills through `underflow`, which issues exactly one low-level read of
buffer-capacity (4096) size: a zero-byte result is end-of-stream; a negative
result is logged and likewise end-of-stream, the state otherwise untouched
(no fatal abort, the caller just sees no more data); a positive result
installs the bytes read as the new get area and yields its first byte. -/
theorem fdStreamBufIn_underflow_spec (s : InBuf)
    (hg : s.gpos = s.gdata.length) :
    ((FdStreamBufIn.sbumpc s).2.readCalls = s.readCalls + 1) ∧
    (s.failRead = true →
      FdStreamBufIn.sbumpc s =
        (none, { s with readCalls := s.readCalls + 1, logs := s.logs + 1 })) ∧
    (s.failRead = false → s.fileData.length ≤ s.fdpos.toNat →
      FdStreamBufIn.sbumpc s =
        (none, { s with readCalls := s.readCalls + 1 })) ∧
    (s.failRead = false → s.fdpos.toNat < s.fileData.length →
      FdStreamBufIn.sbumpc s =
        (((s.fileData.drop s.fdpos.toNat).take FdBufferSize).head?,
          { s with
              fdpos := s.fdpos +
                ((s.fileData.drop s.fdpos.toNat).take FdBufferSize).length,
              gdata := (s.fileData.drop s.fdpos.toNat).take FdBufferSize,
              gpos := 1,
              readCalls := s.readCalls + 1 })) := by
  have hnlt : ¬ s.gpos < s.gdata.length := by omega
  have hne : ∀ as : List Nat, ¬ (((as.length : Int) + 1) = 0) := by
    intro as; omega
  have hneg : ∀ as : List Nat, ¬ (((as.length : Int) + 1) < 0) := by
    intro as; omega
  refine ⟨?_, ?_, ?_, ?_⟩
  · by_cases hf : s.failRead
    · simp [FdStreamBufIn.sbumpc, FdStreamBufIn.underflow, rawRead, hnlt, hf]
    · by_cases hempty : (s.fileData.drop s.fdpos.toNat).take FdBufferSize = []
      · simp [FdStreamBufIn.sbumpc, FdStreamBufIn.underflow, rawRead, hnlt,
          hf, hempty]
      · rcases List.exists_cons_of_ne_nil hempty with ⟨a, as, hcons⟩
        simp [FdStreamBufIn.sbumpc, FdStreamBufIn.underflow, rawRead, hnlt,
          hf, hcons, hne as, hneg as]
  · intro hf
    simp [FdStreamBufIn.sbumpc, FdStreamBufIn.underflow, rawRead, hnlt, hf]
  · intro hf hend
    have hempty : (s.fileData.drop s.fdpos.toNat) = [] := by
      exact List.drop_eq_nil_of_le hend
    simp [FdStreamBufIn.sbumpc, FdStreamBufIn.underflow, rawRead, hnlt, hf,
      hempty]
  · intro hf hlt
    have hempty : (s.fileData.drop s.fdpos.toNat).take FdBufferSize ≠ [] := by
      simp [List.take_eq_nil_iff, List.drop_eq_nil_iff, FdBufferSize]
      omega
    rcases List.exists_cons_of_ne_nil hempty with ⟨a, as, hcons⟩
    simp [FdStreamBufIn.sbumpc, FdStreamBufIn.underflow, rawRead, hnlt, hf,
      hcons, hne as, hneg as]

/-- Witness for C8: a stream whose window is exhausted and whose descriptor
has two bytes left refills with one read, landing on byte 7. -/
theorem fdStreamBufIn_underflow_spec_witness :
    ((⟨1, [9, 7, 8], false, [9], 1, 1, 0, 0⟩ : InBuf).gpos =
      (⟨1, [9, 7, 8], false, [9], 1, 1, 0, 0⟩ : InBuf).gdata.length) ∧
    ((FdStreamBufIn.sbumpc ⟨1, [9, 7, 8], false, [9], 1, 1, 0, 0⟩).2.readCalls =
      (⟨1, [9, 7, 8], false, [9], 1, 1, 0, 0⟩ : InBuf).readCalls + 1) :=
  ⟨by decide,
    (fdStreamBufIn_underflow_spec ⟨1, [9, 7, 8], false, [9], 1, 1, 0, 0⟩
      (by decide)).1⟩

/-- Reading entirely inside the buffered window consumes it byte for byte
and never touches the backend: `readN` over a window with `n` unread bytes
available returns exactly those bytes, only advancing the read pointer. -/
theorem FdStreamBufIn.readN_buffered (n : Nat) :
    ∀ s : InBuf, s.gpos + n ≤ s.gdata.length →
      FdStreamBufIn.readN s n =
        ((s.gdata.drop s.gpos).take n, { s with gpos := s.gpos + n }) := by
  induction n with
  | zero =>
    intro s h
    simp [FdStreamBufIn.readN]
  | succ n ih =>
    intro s h
    have hlt : s.gpos < s.gdata.length := by omega
    have hstep := ih { s with gpos := s.gpos + 1 } (by simp; omega)
    have hgp : s.gpos + 1 + n = s.gpos + (n + 1) := by omega
    simp only [FdStreamBufIn.readN, FdStreamBufIn.sbumpc, dif_pos hlt, hstep]
    rw [List.drop_eq_getElem_cons hlt, List.take_succ_cons, hgp]
    simp

/-- C5. On the SAF backend, input-stream creation resolves a descriptor and
issues exactly one probe read into a fixed 4096-byte buffer: a failing probe
read means the open fails with a null stream buffer (after exactly that one
read attempt); a successful probe forwards the bytes already read as the
stream's initial get area, so the first `n` logical reads, for `n` up to the
probed byte count, return exactly those bytes with no further backend read
and no backend seek. -/
theorem safFilesystem_createInput_probe (h : SafHandle)
    (hfd : 0 ≤ h.fdResult) :
    (h.failRead = true →
      SafFilesystem.CreateInputTrace (some h) = (none, 1, 1)) ∧
    (h.failRead = false →
      ∃ s0 : InBuf,
        SafFilesystem.CreateInputStreambuffer (some h) = some s0 ∧
        s0.gdata = h.fileData.take FdBufferSize ∧
        s0.gpos = 0 ∧ s0.readCalls = 1 ∧ s0.seekCalls = 0 ∧
        ∀ n, n ≤ (h.fileData.take FdBufferSize).length →
          (FdStreamBufIn.readN s0 n).1 = h.fileData.take n ∧
          (FdStreamBufIn.readN s0 n).2.readCalls = 1 ∧
          (FdStreamBufIn.readN s0 n).2.seekCalls = 0) := by
  have hnlt : ¬ h.fdResult < 0 := by omega
  constructor
  · intro hf
    simp [SafFilesystem.CreateInputTrace, rawRead, hnlt, hf]
  · intro hf
    refine ⟨{ fdpos := ((h.fileData.take FdBufferSize).length : Int),
              fileData := h.fileData, failRead := false,
              gdata := h.fileData.take FdBufferSize, gpos := 0,
              readCalls := 1, seekCalls := 0, logs := 0 }, ?_, rfl, rfl, rfl,
            rfl, ?_⟩
    · have hres : ¬ (((h.fileData.take FdBufferSize).length : Int) < 0) := by
        omega
      simp [SafFilesystem.CreateInputStreambuffer,
        SafFilesystem.CreateInputTrace, rawRead, hnlt, hf, hres]
      rw [if_neg (by omega)]
    · intro n hn
      have := FdStreamBufIn.readN_buffered n
        { fdpos := ((h.fileData.take FdBufferSize).length : Int),
          fileData := h.fileData, failRead := false,
          gdata := h.fileData.take FdBufferSize, gpos := 0,
          readCalls := 1, seekCalls := 0, logs := 0 } (by simpa using hn)
      rw [this]
      have hmin : min n FdBufferSize = n := by
        have := List.length_take_le FdBufferSize h.fileData
        omega
      simp [List.take_take, hmin]

/-- Witness for C5 at a concrete handle holding three bytes: the probe
forwards them and the first two logical reads return them with one total
backend read. -/
theorem safFilesystem_createInput_probe_witness :
    (0 ≤ (SafHandle.mk false false true 3 5 false [11, 22, 33]).fdResult) ∧
    ((SafHandle.mk false false true 3 5 false [11, 22, 33]).failRead = true →
      SafFilesystem.CreateInputTrace
        (some (SafHandle.mk false false true 3 5 false [11, 22, 33])) =
        (none, 1, 1)) ∧
    ((SafHandle.mk false false true 3 5 false [11, 22, 33]).failRead = false →
      ∃ s0 : InBuf,
        SafFilesystem.CreateInputStreambuffer
          (some (SafHandle.mk false false true 3 5 false [11, 22, 33])) =
          some s0 ∧
        s0.gdata =
          (SafHandle.mk false false true 3 5 false [11, 22, 33]).fileData.take
            FdBufferSize ∧
        s0.gpos = 0 ∧ s0.readCalls = 1 ∧ s0.seekCalls = 0 ∧
        ∀ n,
          n ≤ ((SafHandle.mk false false true 3 5 false
                  [11, 22, 33]).fileData.take FdBufferSize).length →
          (FdStreamBufIn.readN s0 n).1 =
            (SafHandle.mk false false true 3 5 false [11, 22, 33]).fileData.take
              n ∧
          (FdStreamBufIn.readN s0 n).2.readCalls = 1 ∧
          (FdStreamBufIn.readN s0 n).2.seekCalls = 0) :=
  ⟨by decide,
    (safFilesystem_createInput_probe
      (SafHandle.mk false false true 3 5 false [11, 22, 33]) (by decide)).1,
    (safFilesystem_createInput_probe
      (SafHandle.mk false false true 3 5 false [11, 22, 33]) (by decide)).2⟩

/-- C6. A path that resolves to nothing: on the native backend (platform
resolution yields no node) and on the SAF backend (handle resolution yields
a null handle) the query methods return the `false` sentinel, `GetFilesize`
returns `-1`, and opening for read yields a null stream buffer — all total
functions, no exception. -/
theorem missingPath_sentinels (fs : String → Option NativeNode) (p : String)
    (hmiss : fs p = none) :
    NativeFilesystem.IsFile fs p = false ∧
    NativeFilesystem.IsDirectory fs p = false ∧
    NativeFilesystem.Exists fs p = false ∧
    NativeFilesystem.GetFilesize fs p = -1 ∧
    NativeFilesystem.CreateInputStreambuffer fs p = none ∧
    SafFilesystem.IsFile none = false ∧
    SafFilesystem.IsDirectory none = false ∧
    SafFilesystem.Exists none = false ∧
    SafFilesystem.GetFilesize none = -1 ∧
    SafFilesystem.CreateInputStreambuffer none = none := by
  refine ⟨?_, ?_, ?_, ?_, ?_, rfl, rfl, rfl, rfl, rfl⟩ <;>
    simp [NativeFilesystem.IsFile, NativeFilesystem.IsDirectory,
      NativeFilesystem.Exists, NativeFilesystem.GetFilesize,
      NativeFilesystem.CreateInputStreambuffer, Platform.fileIsFile,
      Platform.fileIsDirectory, Platform.fileExists, Platform.fileGetSize,
      hmiss]

/-- Witness for C6 on the empty native filesystem and the path "save.lsd". -/
theorem missingPath_sentinels_witness :
    ((fun _ : String => (none : Option NativeNode)) "save.lsd" = none) ∧
    (NativeFilesystem.IsFile (fun _ => none) "save.lsd" = false ∧
      NativeFilesystem.IsDirectory (fun _ => none) "save.lsd" = false ∧
      NativeFilesystem.Exists (fun _ => none) "save.lsd" = false ∧
      NativeFilesystem.GetFilesize (fun _ => none) "save.lsd" = -1 ∧
      NativeFilesystem.CreateInputStreambuffer (fun _ => none) "save.lsd" =
        none ∧
      SafFilesystem.IsFile none = false ∧
      SafFilesystem.IsDirectory none = false ∧
      SafFilesystem.Exists none = false ∧
      SafFilesystem.GetFilesize none = -1 ∧
      SafFilesystem.CreateInputStreambuffer none = none) :=
  ⟨rfl, missingPath_sentinels (fun _ => none) "save.lsd" rfl⟩

/-- C7 counterexample. The SAF bridge resolves an inexistent target to a
directory-like handle (exactly the case the probe-read comment in
`CreateInputStreambuffer` documents): the path does not exist (`Exists`
reports false), yet creation makes a bridge descriptor call and one probe
read attempt beyond handle resolution before returning the null stream —
so "no bridge call beyond the initial handle resolution, in particular no
read attempt" is false on this input. -/
theorem safFilesystem_createInput_missing_counterexample :
    SafFilesystem.Exists (some safMissingDirHandle) = false ∧
    SafFilesystem.CreateInputStreambuffer (some safMissingDirHandle) = none ∧
    (SafFilesystem.CreateInputTrace (some safMissingDirHandle)).2.1 = 1 ∧
    (SafFilesystem.CreateInputTrace (some safMissingDirHandle)).2.2 = 1 := by
  refine ⟨rfl, ?_, ?_, ?_⟩ <;>
    simp [SafFilesystem.CreateInputStreambuffer,
      SafFilesystem.CreateInputTrace, safMissingDirHandle, rawRead]

/-- C7 amended. Opening a non-existent path for input on the SAF backend
always yields a null stream and never a crash; when handle resolution itself
returns the null handle, no bridge call at all is made beyond the
resolution (in particular no read attempt); when the bridge instead
resolves the inexistent target to a directory-like handle whose reads fail,
exactly one descriptor bridge call and at most one probe read are made
before the null stream is returned. -/
theorem safFilesystem_createInput_missing_spec :
    (SafFilesystem.CreateInputTrace none = (none, 0, 0)) ∧
    (∀ h : SafHandle, h.failRead = true →
      SafFilesystem.CreateInputStreambuffer (some h) = none ∧
      (SafFilesystem.CreateInputTrace (some h)).2.1 = 1 ∧
      (SafFilesystem.CreateInputTrace (some h)).2.2 ≤ 1) := by
  refine ⟨rfl, ?_⟩
  intro h hf
  by_cases hfd : h.fdResult < 0 <;>
    simp [SafFilesystem.CreateInputStreambuffer,
      SafFilesystem.CreateInputTrace, rawRead, hf, hfd]

/-- Witness for the amended C7 at the documented directory-like handle. -/
theorem safFilesystem_createInput_missing_spec_witness :
    (safMissingDirHandle.failRead = true) ∧
    (SafFilesystem.CreateInputStreambuffer (some safMissingDirHandle) = none ∧
      (SafFilesystem.CreateInputTrace (some safMissingDirHandle)).2.1 = 1 ∧
      (SafFilesystem.CreateInputTrace (some safMissingDirHandle)).2.2 ≤ 1) :=
  ⟨rfl, safFilesystem_createInput_missing_spec.2 safMissingDirHandle rfl⟩

/-- C9. Native directory enumeration skips the `.` and `..` pseudo-entries
and, for every remaining entry, reports a directory exactly when the
directory-entry metadata says `Directory`, or says `Unknown` and the
explicit symlink-following probe affirms it; every other entry is reported
as a regular file. -/
theorem nativeFilesystem_getDirectoryContent_spec (probe : String → Bool)
    (entries : List PlatformDirEntry) :
    NativeFilesystem.GetDirectoryContent probe entries =
      (entries.filter (fun e => ¬ (e.name = "." ∨ e.name = ".."))).map
        (fun e =>
          (e.name,
            if e.etype = PlatformFileType.Directory ∨
                (e.etype = PlatformFileType.Unknown ∧ probe e.name = true) then
              TreeFileType.Directory
            else TreeFileType.Regular)) := by
  induction entries with
  | nil => rfl
  | cons e rest ih =>
    by_cases hskip : e.name = "." ∨ e.name = ".."
    · have hb : (!decide (e.name = ".") && !decide (e.name = "..")) = false := by
        rcases hskip with h | h <;> simp [h]
      simp [NativeFilesystem.GetDirectoryContent, hskip, ih,
        List.filter_cons, hb]
    · push_neg at hskip
      have hb : (!decide (e.name = ".") && !decide (e.name = "..")) = true := by
        simp [hskip.1, hskip.2]
      have hskip' : ¬ (e.name = "." ∨ e.name = "..") := by
        simp [hskip.1, hskip.2]
      cases he : e.etype with
      | Directory =>
        simp [NativeFilesystem.GetDirectoryContent, hskip', ih, he,
          List.filter_cons, hb]
      | File =>
        simp [NativeFilesystem.GetDirectoryContent, hskip', ih, he,
          List.filter_cons, hb]
      | Other =>
        simp [NativeFilesystem.GetDirectoryContent, hskip', ih, he,
          List.filter_cons, hb]
      | Unknown =>
        by_cases hp : probe e.name <;>
          simp [NativeFilesystem.GetDirectoryContent, hskip', ih, he,
            List.filter_cons, hb, hp]

/-- C3. A short write is fatal: when the backend accepts fewer bytes than a
flush requested, `sync` returns the `-1` sentinel after exactly that one
low-level write (no further write in the call); an `overflow` whose flush
fails returns EOF with no low-level write beyond the flush; the
`std::ostream` layer above turns that EOF into the sticky failure state, so
a full-buffer write hitting the short write fails and marks the stream, and
once marked every subsequent write on the stream fails leaving everything
unchanged; and whenever `sync` delivers to the backend anything other than
the whole buffered span, the call reported `-1` — no tail byte is dropped
silently. -/
theorem fdStreamBufOut_shortWrite_fatal (s : OutBuf) (r : Int)
    (rest : List Int) (st : OutStream) (b c : Nat) (hor : s.oracle = r :: rest)
    (hr : 0 ≤ r) (hshort : r < (s.buf.length : Int)) (hbad : st.bad = true) :
    (FdStreamBufOut.sync s =
      (-1, { s with oracle := rest, buf := [],
                    accepted := s.accepted ++ s.buf.take r.toNat,
                    writeCalls := s.writeCalls + 1 })) ∧
    (∀ s' : OutBuf, (FdStreamBufOut.sync s').1 < 0 →
      FdStreamBufOut.overflow s' (some c) = (none, (FdStreamBufOut.sync s').2)) ∧
    (∀ st' : OutStream, st'.bad = false →
      ¬ st'.sb.buf.length < FdOutCapacity →
      (FdStreamBufOut.overflow st'.sb (some c)).1 = none →
      OutStream.put st' c = (false, ⟨(FdStreamBufOut.overflow st'.sb (some c)).2, true⟩)) ∧
    (OutStream.put st b = (false, st)) ∧
    (∀ s' : OutBuf,
      (FdStreamBufOut.sync s').2.accepted ≠ s'.accepted ++ s'.buf →
      (FdStreamBufOut.sync s').1 = -1) := by
  have hlen : s.buf.length ≠ 0 := by
    intro h0
    rw [h0] at hshort
    omega
  have hnneg : ¬ r < 0 := by omega
  have hmin : min r.toNat s.buf.length = r.toNat := by omega
  refine ⟨?_, ?_, ?_, ?_, ?_⟩
  · simp [FdStreamBufOut.sync, rawWrite, hor, hlen, hnneg, hmin]
    omega
  · intro s' hfail
    simp only [FdStreamBufOut.overflow]
    rw [if_pos hfail]
  · intro st' hb' hfull heof
    simp only [OutStream.put, hb', Bool.false_eq_true, if_false, if_neg hfull]
    rcases hov : FdStreamBufOut.overflow st'.sb (some c) with ⟨res, sb'⟩
    rw [hov] at heof
    simp at heof
    subst heof
    rfl
  · simp [OutStream.put, hbad]
  · intro s' hdrop
    by_cases h0 : s'.buf.length = 0
    · exfalso
      apply hdrop
      have : s'.buf = [] := List.length_eq_zero.mp h0
      simp [FdStreamBufOut.sync, h0, this]
    · rcases horc : s'.oracle with _ | ⟨r', rest'⟩
      · exfalso
        apply hdrop
        simp [FdStreamBufOut.sync, rawWrite, h0, horc]
      · by_cases hneg : r' < 0
        · simp [FdStreamBufOut.sync, rawWrite, h0, horc, hneg]
          rw [if_pos (by omega)]
        · by_cases hfull : (s'.buf.length : Int) ≤ r'
          · exfalso
            apply hdrop
            have hmin' : min r'.toNat s'.buf.length = s'.buf.length := by
              omega
            simp [FdStreamBufOut.sync, rawWrite, h0, horc, hneg, hmin']
          · have hmin' : min r'.toNat s'.buf.length = r'.toNat := by omega
            simp [FdStreamBufOut.sync, rawWrite, h0, horc, hneg, hmin']
            rw [if_pos (by omega)]

/-- Witness for C3: a 3-byte buffered span of which the backend accepts 1
byte; the flush returns -1, and a bad stream refuses a write. -/
theorem fdStreamBufOut_shortWrite_fatal_witness :
    ((⟨[5, 6, 7], [], [1, 9], 0, false⟩ : OutBuf).oracle = 1 :: [9]) ∧
    ((0 : Int) ≤ 1) ∧
    ((1 : Int) < ((⟨[5, 6, 7], [], [1, 9], 0, false⟩ : OutBuf).buf.length : Int)) ∧
    ((⟨⟨[], [], [], 0, false⟩, true⟩ : OutStream).bad = true) ∧
    (FdStreamBufOut.sync ⟨[5, 6, 7], [], [1, 9], 0, false⟩ =
      (-1, { (⟨[5, 6, 7], [], [1, 9], 0, false⟩ : OutBuf) with
               oracle := [9], buf := [],
               accepted := [] ++ ([5, 6, 7] : List Nat).take (1 : Int).toNat,
               writeCalls := 0 + 1 }) ∧
      OutStream.put ⟨⟨[], [], [], 0, false⟩, true⟩ 8 =
        (false, ⟨⟨[], [], [], 0, false⟩, true⟩)) :=
  ⟨rfl, by decide, by decide, rfl,
    ⟨(fdStreamBufOut_shortWrite_fatal ⟨[5, 6, 7], [], [1, 9], 0, false⟩ 1 [9]
        ⟨⟨[], [], [], 0, false⟩, true⟩ 8 4 rfl (by decide) (by decide) rfl).1,
      (fdStreamBufOut_shortWrite_fatal ⟨[5, 6, 7], [], [1, 9], 0, false⟩ 1 [9]
        ⟨⟨[], [], [], 0, false⟩, true⟩ 8 4 rfl (by decide) (by decide) rfl).2.2.2.1⟩⟩

/-- C4. Destruction of the buffered output stream flushes the put area
before closing the descriptor: it is a total function that discards the
flush result (best-effort, never raises) and always ends with the
descriptor closed and the put area empty; and whenever the backend accepts
the flush in full, every byte written into the buffer but never explicitly
flushed reaches the backend. -/
theorem fdStreamBufOut_destroy_flushes (s : OutBuf)
    (hacc : s.oracle = [] ∨
      ∃ r rest, s.oracle = r :: rest ∧ (s.buf.length : Int) ≤ r) :
    (FdStreamBufOut.destroy s).accepted = s.accepted ++ s.buf ∧
    (FdStreamBufOut.destroy s).closed = true ∧
    (FdStreamBufOut.destroy s).buf = [] ∧
    (∀ s' : OutBuf, (FdStreamBufOut.destroy s').closed = true ∧
      (FdStreamBufOut.destroy s').buf = []) := by
  have hclosed : ∀ s' : OutBuf, (FdStreamBufOut.destroy s').closed = true ∧
      (FdStreamBufOut.destroy s').buf = [] := by
    intro s'
    by_cases h0 : s'.buf.length = 0
    · have : s'.buf = [] := List.length_eq_zero.mp h0
      simp [FdStreamBufOut.destroy, FdStreamBufOut.sync, h0, this]
    · rcases horc : s'.oracle with _ | ⟨r', rest'⟩
      · simp [FdStreamBufOut.destroy, FdStreamBufOut.sync, rawWrite, h0, horc]
      · by_cases hneg : r' < 0 <;>
          simp [FdStreamBufOut.destroy, FdStreamBufOut.sync, rawWrite, h0,
            horc, hneg] <;>
          split <;> rfl
  refine ⟨?_, (hclosed s).1, (hclosed s).2, hclosed⟩
  by_cases h0 : s.buf.length = 0
  · have : s.buf = [] := List.length_eq_zero.mp h0
    simp [FdStreamBufOut.destroy, FdStreamBufOut.sync, h0, this]
  · rcases hacc with horc | ⟨r, rest, horc, hfull⟩
    · simp [FdStreamBufOut.destroy, FdStreamBufOut.sync, rawWrite, h0, horc]
    · have hneg : ¬ r < 0 := by omega
      have hmin : min r.toNat s.buf.length = s.buf.length := by omega
      simp [FdStreamBufOut.destroy, FdStreamBufOut.sync, rawWrite, h0, horc,
        hneg, hmin]

/-- Witness for C4: two unflushed bytes and a backend accepting everything
are persisted by destruction alone. -/
theorem fdStreamBufOut_destroy_flushes_witness :
    ((⟨[3, 4], [9], [], 0, false⟩ : OutBuf).oracle = [] ∨
      ∃ r rest, (⟨[3, 4], [9], [], 0, false⟩ : OutBuf).oracle = r :: rest ∧
        (((⟨[3, 4], [9], [], 0, false⟩ : OutBuf).buf.length : Int)) ≤ r) ∧
    ((FdStreamBufOut.destroy ⟨[3, 4], [9], [], 0, false⟩).accepted =
        [9] ++ [3, 4] ∧
      (FdStreamBufOut.destroy ⟨[3, 4], [9], [], 0, false⟩).closed = true) :=
  ⟨Or.inl rfl,
    ⟨(fdStreamBufOut_destroy_flushes ⟨[3, 4], [9], [], 0, false⟩ (Or.inl rfl)).1,
      (fdStreamBufOut_destroy_flushes ⟨[3, 4], [9], [], 0, false⟩
        (Or.inl rfl)).2.1⟩⟩
